import Mathlib

/-!
Verification of the sun-scene demo (src/index.js).

The file embeds the construction-time scene assembly (sun body, wireframe
overlay, occlusion shell, corona shells, solar flares), the fragment shader,
the per-frame animation tick, and the resize handler as Lean definitions over
the reals (JS numbers are modelled as real numbers; construction-time decimal
constants additionally as rationals where exact decimal arithmetic matters),
and proves the specified properties about them.
-/

noncomputable section

namespace SunDemo

open Real

/-! ### three.js vector primitives (the subset the demo uses) -/

/-- A 3-component vector, as three.js `Vector3`. -/
structure Vec3 where
  x : ℝ
  y : ℝ
  z : ℝ

instance : Inhabited Vec3 := ⟨⟨0, 0, 0⟩⟩

/-- three.js `Vector3.length()`: `sqrt(x*x + y*y + z*z)`. -/
def Vec3.length (v : Vec3) : ℝ :=
  Real.sqrt (v.x * v.x + v.y * v.y + v.z * v.z)

/-- three.js `Vector3.multiplyScalar(s)`. -/
def Vec3.multiplyScalar (v : Vec3) (s : ℝ) : Vec3 :=
  ⟨v.x * s, v.y * s, v.z * s⟩

/-- three.js `Vector3.divideScalar(s)` = `multiplyScalar(1/s)`. -/
def Vec3.divideScalar (v : Vec3) (s : ℝ) : Vec3 :=
  v.multiplyScalar (1 / s)

/-- three.js `Vector3.normalize()` = `divideScalar(length() || 1)`:
a zero-length vector is divided by 1 and so stays the zero vector. -/
def Vec3.normalize (v : Vec3) : Vec3 :=
  v.divideScalar (if v.length = 0 then 1 else v.length)

/-- three.js `subVectors(a, b)`. -/
def Vec3.sub (a b : Vec3) : Vec3 :=
  ⟨a.x - b.x, a.y - b.y, a.z - b.z⟩

/-- three.js `Vector3.add(b)`. -/
def Vec3.add (a b : Vec3) : Vec3 :=
  ⟨a.x + b.x, a.y + b.y, a.z + b.z⟩

/-- three.js `Vector3.distanceToSquared(b)`. -/
def Vec3.distanceToSquared (a b : Vec3) : ℝ :=
  (a.x - b.x) * (a.x - b.x) + (a.y - b.y) * (a.y - b.y) + (a.z - b.z) * (a.z - b.z)

/-! ### CatmullRomCurve3 sampling (three.js, `curveType = 'centripetal'`) -/

/-- three.js `CubicPoly` coefficient record. -/
structure CubicPoly where
  c0 : ℝ
  c1 : ℝ
  c2 : ℝ
  c3 : ℝ

/-- three.js `CubicPoly.init(x0, x1, t0, t1)`. -/
def cubicPolyInit (x0 x1 t0 t1 : ℝ) : CubicPoly :=
  ⟨x0, t0, -3 * x0 + 3 * x1 - 2 * t0 - t1, 2 * x0 - 2 * x1 + t0 + t1⟩

/-- three.js `CubicPoly.calc(t)` = `c0 + c1*t + c2*t² + c3*t³`. -/
def CubicPoly.calc (cp : CubicPoly) (t : ℝ) : ℝ :=
  cp.c0 + cp.c1 * t + cp.c2 * (t * t) + cp.c3 * (t * t * t)

/-- three.js `CubicPoly.initNonuniformCatmullRom`. -/
def nonuniformCatmullRom (x0 x1 x2 x3 dt0 dt1 dt2 : ℝ) : CubicPoly :=
  cubicPolyInit x1 x2
    (((x1 - x0) / dt0 - (x2 - x0) / (dt0 + dt1) + (x2 - x1) / dt1) * dt1)
    (((x2 - x1) / dt1 - (x3 - x1) / (dt1 + dt2) + (x3 - x2) / dt2) * dt1)

/-- three.js `CatmullRomCurve3.getPoint(t)` for an open curve with the default
`'centripetal'` curve type (power 0.25), over the control-point list `pts`. -/
def catmullRomPoint (pts : List Vec3) (t : ℝ) : Vec3 :=
  let l : ℕ := pts.length
  let p : ℝ := ((l : ℝ) - 1) * t
  let ip0 : ℤ := ⌊p⌋
  let w0 : ℝ := p - ip0
  let ip : ℤ := if w0 = 0 ∧ ip0 = (l : ℤ) - 1 then (l : ℤ) - 2 else ip0
  let weight : ℝ := if w0 = 0 ∧ ip0 = (l : ℤ) - 1 then 1 else w0
  let idx : ℤ → Vec3 := fun k => pts.getD (k % (l : ℤ)).toNat default
  let p0 : Vec3 :=
    if 0 < ip then idx (ip - 1)
    else ((pts.getD 0 default).sub (pts.getD 1 default)).add (pts.getD 0 default)
  let p1 : Vec3 := idx ip
  let p2 : Vec3 := idx (ip + 1)
  let p3 : Vec3 :=
    if ip + 2 < (l : ℤ) then idx (ip + 2)
    else ((pts.getD (l - 1) default).sub (pts.getD (l - 2) default)).add (pts.getD (l - 1) default)
  let dt0 : ℝ := (p0.distanceToSquared p1) ^ (0.25 : ℝ)
  let dt1 : ℝ := (p1.distanceToSquared p2) ^ (0.25 : ℝ)
  let dt2 : ℝ := (p2.distanceToSquared p3) ^ (0.25 : ℝ)
  let dt1g : ℝ := if dt1 < 1e-4 then 1.0 else dt1
  let dt0g : ℝ := if dt0 < 1e-4 then dt1g else dt0
  let dt2g : ℝ := if dt2 < 1e-4 then dt1g else dt2
  let px := nonuniformCatmullRom p0.x p1.x p2.x p3.x dt0g dt1g dt2g
  let py := nonuniformCatmullRom p0.y p1.y p2.y p3.y dt0g dt1g dt2g
  let pz := nonuniformCatmullRom p0.z p1.z p2.z p3.z dt0g dt1g dt2g
  ⟨px.calc weight, py.calc weight, pz.calc weight⟩

/-- three.js `Curve.getPoints(divisions)`: samples `getPoint(d / divisions)`
for `d = 0 .. divisions`, giving `divisions + 1` points. -/
def curveGetPoints (pts : List Vec3) (divisions : ℕ) : List Vec3 :=
  (List.range (divisions + 1)).map fun (d : ℕ) => catmullRomPoint pts ((d : ℝ) / (divisions : ℝ))

/-! ### Construction-time scene constants (src/index.js lines 27–116) -/

/-- `new THREE.IcosahedronGeometry(1.0, 6)` — sun body radius. -/
def sunRadius : ℚ := 1.0

/-- `sunMesh.renderOrder = 0`. -/
def sunRenderOrder : ℚ := 0

/-- `wireMesh.scale.setScalar(1.012)`. -/
def wireScaleFactor : ℚ := 1.012

/-- `wireMesh.renderOrder = 0.5`. -/
def wireRenderOrder : ℚ := 0.5

/-- `new THREE.SphereGeometry(1.025, 64, 48)` — occlusion blocker radius. -/
def occlusionRadius : ℚ := 1.025

/-- `occlusion.renderOrder = 1`. -/
def occlusionRenderOrder : ℚ := 1

/-- One corona shell: the mesh parameters built in the corona loop. -/
structure CoronaShell where
  radius : ℚ
  colorScalar : ℚ
  opacity : ℚ
  renderOrder : ℚ

/-- Corona loop body (src/index.js lines 100–116): for index `i`,
radius `1.0 + i * 0.16`, color intensity `1.4 - i * 0.28`,
opacity `0.2 - i * 0.11`, render order `2 + i`. -/
def mkCorona (i : ℚ) : CoronaShell :=
  { radius := 1.0 + i * 0.16
    colorScalar := 1.4 - i * 0.28
    opacity := 0.2 - i * 0.11
    renderOrder := 2 + i }

/-- The corona loop runs `for (let i = 1; i <= 4; i++)`. -/
def coronaShells : List CoronaShell :=
  [mkCorona 1, mkCorona 2, mkCorona 3, mkCorona 4]

/-! ### Flare construction (src/index.js lines 119–152)

`Math.random()` calls are modelled by a stream `rnd : ℕ → ℝ` of values in
`[0, 1)`, consumed in source evaluation order: flare `i` draws values
`rnd (9*i) .. rnd (9*i+8)` — three for the first random direction, three for
the second, one for the tip radius, one for the material opacity, and one for
the per-flare base scale. -/

/-- `flareCount = 8`. -/
def flareCount : ℕ := 8

/-- Per-flare immutable metadata, `flareLine.userData`. -/
structure FlareData where
  phase : ℝ
  baseScale : ℝ

/-- The second control point's raw random vector:
`((Math.random()-0.5)*0.8, (Math.random()-0.5)*0.8, (Math.random()-0.5)*0.8)`. -/
def flareDir1 (rnd : ℕ → ℝ) (i : ℕ) : Vec3 :=
  ⟨(rnd (9 * i) - 0.5) * 0.8, (rnd (9 * i + 1) - 0.5) * 0.8, (rnd (9 * i + 2) - 0.5) * 0.8⟩

/-- The third control point's raw random vector:
`((Math.random()-0.5)*3, (Math.random()-0.5)*3, (Math.random()-0.5)*3)`. -/
def flareDir2 (rnd : ℕ → ℝ) (i : ℕ) : Vec3 :=
  ⟨(rnd (9 * i + 3) - 0.5) * 3, (rnd (9 * i + 4) - 0.5) * 3, (rnd (9 * i + 5) - 0.5) * 3⟩

/-- The `CatmullRomCurve3` control points of flare `i`: the origin, the first
random direction normalized to radius 1.1, and the second random direction
normalized to a random radius `2.5 + Math.random() * 1.5`. -/
def controlPoints (rnd : ℕ → ℝ) (i : ℕ) : List Vec3 :=
  [⟨0, 0, 0⟩,
   (flareDir1 rnd i).normalize.multiplyScalar 1.1,
   (flareDir2 rnd i).normalize.multiplyScalar (2.5 + rnd (9 * i + 6) * 1.5)]

/-- One flare object as built by the flare loop. -/
structure Flare where
  curvePoints : List Vec3
  points : List Vec3
  opacity : ℝ
  userData : FlareData
  renderOrder : ℚ

instance : Inhabited Flare := ⟨⟨[], [], 0, ⟨0, 0⟩, 0⟩⟩

/-- Flare loop body: curve from `controlPoints`, polyline `curve.getPoints(50)`,
material opacity `0.7 + Math.random() * 0.3`,
`userData = { phase: i * 1.5, scale: 1 + Math.random() * 0.8 }`,
`renderOrder = 10 + i`. -/
def mkFlare (rnd : ℕ → ℝ) (i : ℕ) : Flare :=
  { curvePoints := controlPoints rnd i
    points := curveGetPoints (controlPoints rnd i) 50
    opacity := 0.7 + rnd (9 * i + 7) * 0.3
    userData := ⟨(i : ℝ) * 1.5, 1 + rnd (9 * i + 8) * 0.8⟩
    renderOrder := 10 + (i : ℚ) }

/-- The flare loop `for (let i = 0; i < flareCount; i++)`. -/
def mkFlares (rnd : ℕ → ℝ) : List Flare :=
  (List.range flareCount).map (mkFlare rnd)

/-! ### The surface fragment shader (src/index.js lines 40–60) -/

/-- A 2-component vector (GLSL `vec2`). -/
structure Vec2 where
  x : ℝ
  y : ℝ

/-- A 4-component vector (GLSL `vec4`, here an RGBA fragment color). -/
@[ext]
structure Vec4 where
  x : ℝ
  y : ℝ
  z : ℝ
  w : ℝ

/-- GLSL `fract(x) = x - floor(x)`. -/
def fract (x : ℝ) : ℝ := x - ⌊x⌋

/-- The shader's hash noise:
`noise(p) = fract(sin(dot(p, vec2(12.9898, 78.233))) * 43758.5453)`. -/
def noise (p : Vec2) : ℝ :=
  fract (Real.sin (p.x * 12.9898 + p.y * 78.233) * 43758.5453)

/-- GLSL `clamp(x, lo, hi)`. -/
def clamp (x lo hi : ℝ) : ℝ := min (max x lo) hi

/-- GLSL `smoothstep(e0, e1, x)`: Hermite interpolation of the clamped
normalized input. -/
def smoothstep (e0 e1 x : ℝ) : ℝ :=
  let t := clamp ((x - e0) / (e1 - e0)) 0 1
  t * t * (3 - 2 * t)

/-- GLSL `mix(a, b, t) = a * (1 - t) + b * t`. -/
def glslMix (a b t : ℝ) : ℝ := a * (1 - t) + b * t

/-- The fragment shader `main()`: two noise octaves at
`vUv*5 + time*0.05` and `vUv*12 + time*0.08` (the second weighted 0.5),
thresholded by `smoothstep(0.4, 0.7, ·)`, mixed from the spot color
`(0.6, 0.3, 0.1)` to the base color `(1.0, 0.7, 0.2)`, with alpha 1. -/
def fragShader (vUv : Vec2) (time : ℝ) : Vec4 :=
  let n1 := noise ⟨vUv.x * 5.0 + time * 0.05, vUv.y * 5.0 + time * 0.05⟩
  let n2 := n1 + noise ⟨vUv.x * 12.0 + time * 0.08, vUv.y * 12.0 + time * 0.08⟩ * 0.5
  let n := smoothstep 0.4 0.7 n2
  ⟨glslMix 0.6 1.0 n, glslMix 0.3 0.7 n, glslMix 0.1 0.2 n, 1.0⟩

/-- The fragment color exactly as the specification words it:
`n = smoothstep(0.4, 0.7, noise(uv*5 + time*0.05) + 0.5 * noise(uv*12 + time*0.08))`,
RGB `= mix((0.6,0.3,0.1), (1.0,0.7,0.2), n)`, alpha `1`. -/
def specFragColor (uv : Vec2) (time : ℝ) : Vec4 :=
  let n := smoothstep 0.4 0.7
    (noise ⟨uv.x * 5 + time * 0.05, uv.y * 5 + time * 0.05⟩ +
      0.5 * noise ⟨uv.x * 12 + time * 0.08, uv.y * 12 + time * 0.08⟩)
  ⟨glslMix 0.6 1.0 n, glslMix 0.3 0.7 n, glslMix 0.1 0.2 n, 1⟩

/-! ### The animation tick (src/index.js lines 158–178) -/

/-- JavaScript truncation toward zero, as used by the `%` operator. -/
def jsTrunc (x : ℝ) : ℤ := if 0 ≤ x then ⌊x⌋ else ⌈x⌉

/-- The JavaScript remainder `a % b`: `a - b * trunc(a / b)`. -/
def jsMod (a b : ℝ) : ℝ := a - b * jsTrunc (a / b)

/-- Mutable per-flare state: the immutable `userData` plus the scale and
material opacity written each frame. -/
structure FlareState where
  data : FlareData
  scale : ℝ
  opacity : ℝ

instance : Inhabited FlareState := ⟨⟨⟨0, 0⟩, 0, 0⟩⟩

/-- The mutable scene state the animation tick writes: the shader `time`
uniform, the sun group's uniform scale and y-rotation, and the flare states. -/
@[ext]
structure AnimState where
  uniformTime : ℝ
  groupScale : ℝ
  groupRotY : ℝ
  flares : List FlareState

/-- The per-flare update in the tick:
`phase = (time + flare.userData.phase) % (Math.PI * 2)`,
`grow = Math.max(0, Math.sin(phase * 2) * 1.5)`,
`flare.scale.setScalar(grow * flare.userData.scale)`,
`flare.material.opacity = 0.4 + Math.sin(phase * 3) * 0.6`. -/
def updateFlare (time : ℝ) (f : FlareState) : FlareState :=
  let phase := jsMod (time + f.data.phase) (π * 2)
  let grow := max 0 (Real.sin (phase * 2) * 1.5)
  { f with
    scale := grow * f.data.baseScale
    opacity := 0.4 + Real.sin (phase * 3) * 0.6 }

/-- One animation tick `animate(t)`: `time = t * 0.0005`; writes the shader
uniform, the pulse scale `1 + sin(time*2)*0.02`, the rotation `time * 0.3`,
and updates every flare. -/
def animateTick (t : ℝ) (s : AnimState) : AnimState :=
  let time := t * 0.0005
  { uniformTime := time
    groupScale := 1 + Real.sin (time * 2) * 0.02
    groupRotY := time * 0.3
    flares := s.flares.map (updateFlare time) }

/-- The flare states right after construction: `userData` and material opacity
from the flare loop, object scale at the three.js default 1. -/
def initFlareStates (rnd : ℕ → ℝ) : List FlareState :=
  (mkFlares rnd).map fun f => ⟨f.userData, 1, f.opacity⟩

/-- The scene state right after construction: shader uniform
`time: { value: 0 }`, group scale 1 and rotation 0 (three.js defaults). -/
def initAnimState (rnd : ℕ → ℝ) : AnimState :=
  ⟨0, 1, 0, initFlareStates rnd⟩

/-! ### Application state and the resize handler (src/index.js lines 5–20, 183–189) -/

/-- Everything assembled under the sun group at startup. -/
structure SceneGraph where
  sunOrder : ℚ
  wireOrder : ℚ
  occlusionOrder : ℚ
  coronas : List CoronaShell
  flares : List Flare

/-- Scene construction: the five fixed layers plus the flare loop. -/
def buildScene (rnd : ℕ → ℝ) : SceneGraph :=
  ⟨sunRenderOrder, wireRenderOrder, occlusionRenderOrder, coronaShells, mkFlares rnd⟩

/-- The renderer/camera state touched by setup and by the resize listener. -/
structure App where
  rendererWidth : ℚ
  rendererHeight : ℚ
  cameraFov : ℚ
  cameraAspect : ℚ
  cameraNear : ℚ
  cameraFar : ℚ
  scene : SceneGraph

/-- Startup: `renderer.setSize(w, h)` and
`new THREE.PerspectiveCamera(75, w / h, 0.1, 1000)`. -/
def initApp (rnd : ℕ → ℝ) (w h : ℚ) : App :=
  ⟨w, h, 75, w / h, 0.1, 1000, buildScene rnd⟩

/-- The resize listener: `renderer.setSize(w, h)`, `camera.aspect = w / h`,
`camera.updateProjectionMatrix()` — nothing else is touched. -/
def onResize (a : App) (w h : ℚ) : App :=
  { a with rendererWidth := w, rendererHeight := h, cameraAspect := w / h }

/-! ### Arithmetic facts about the JavaScript remainder -/

/-- For a nonnegative dividend and positive divisor the JS remainder is
`b` times the fractional part of `a / b`. -/
lemma jsMod_eq_fract (a b : ℝ) (ha : 0 ≤ a) (hb : 0 < b) :
    jsMod a b = b * Int.fract (a / b) := by
  have hq : 0 ≤ a / b := div_nonneg ha hb.le
  rw [jsMod, jsTrunc, if_pos hq, Int.fract, mul_sub, mul_div_cancel₀ a hb.ne']

lemma jsMod_nonneg (a b : ℝ) (ha : 0 ≤ a) (hb : 0 < b) : 0 ≤ jsMod a b := by
  rw [jsMod_eq_fract a b ha hb]
  exact mul_nonneg hb.le (Int.fract_nonneg _)

lemma jsMod_lt (a b : ℝ) (ha : 0 ≤ a) (hb : 0 < b) : jsMod a b < b := by
  rw [jsMod_eq_fract a b ha hb]
  exact (mul_lt_iff_lt_one_right hb).mpr (Int.fract_lt_one _)

/-- Doubling a value reduced mod `2π` does not change its sine at twice the
original value: the reduction shifts by an integer multiple of `2π`. -/
lemma sin_two_mul_jsMod (a : ℝ) :
    Real.sin (jsMod a (π * 2) * 2) = Real.sin (a * 2) := by
  have h : (a - π * 2 * (jsTrunc (a / (π * 2)) : ℝ)) * 2
      = a * 2 - ((2 * jsTrunc (a / (π * 2)) : ℤ) : ℝ) * (2 * π) := by
    push_cast
    ring
  rw [jsMod, h, Real.sin_sub_int_mul_two_pi]

/-- Same as `sin_two_mul_jsMod` with multiplier 3. -/
lemma sin_three_mul_jsMod (a : ℝ) :
    Real.sin (jsMod a (π * 2) * 3) = Real.sin (a * 3) := by
  have h : (a - π * 2 * (jsTrunc (a / (π * 2)) : ℝ)) * 3
      = a * 3 - ((3 * jsTrunc (a / (π * 2)) : ℤ) : ℝ) * (2 * π) := by
    push_cast
    ring
  rw [jsMod, h, Real.sin_sub_int_mul_two_pi]

/-! ### Lengths of scaled and normalized vectors -/

lemma Vec3.length_nonneg (v : Vec3) : 0 ≤ v.length :=
  Real.sqrt_nonneg _

lemma Vec3.length_multiplyScalar (v : Vec3) (s : ℝ) :
    (v.multiplyScalar s).length = |s| * v.length := by
  simp only [Vec3.multiplyScalar, Vec3.length]
  rw [show v.x * s * (v.x * s) + v.y * s * (v.y * s) + v.z * s * (v.z * s)
      = (s * s) * (v.x * v.x + v.y * v.y + v.z * v.z) by ring]
  rw [Real.sqrt_mul (mul_self_nonneg s), Real.sqrt_mul_self_eq_abs]

lemma Vec3.length_normalize (v : Vec3) (h : v.length ≠ 0) : v.normalize.length = 1 := by
  have hpos : 0 < v.length := lt_of_le_of_ne (Vec3.length_nonneg v) (Ne.symm h)
  simp only [Vec3.normalize, Vec3.divideScalar, if_neg h]
  rw [Vec3.length_multiplyScalar, abs_of_pos (by positivity)]
  field_simp

/-- A nonzero vector normalized then scaled by a nonnegative factor has
exactly that factor as its length. -/
lemma length_normalize_multiplyScalar (v : Vec3) (h : v.length ≠ 0) (s : ℝ) (hs : 0 ≤ s) :
    (v.normalize.multiplyScalar s).length = s := by
  rw [Vec3.length_multiplyScalar, Vec3.length_normalize v h, mul_one, abs_of_nonneg hs]

/-! ### Sign of the sine at the flare phases `3·i` -/

lemma sin_three_pos : 0 < Real.sin 3 :=
  Real.sin_pos_of_pos_of_lt_pi (by norm_num) Real.pi_gt_three

lemma sin_six_neg : Real.sin 6 < 0 := by
  have h1 := Real.pi_gt_three
  have h2 := Real.pi_lt_d2
  have h : Real.sin 6 = Real.sin (6 - 2 * π) := (Real.sin_sub_two_pi 6).symm
  rw [h]
  exact Real.sin_neg_of_neg_of_neg_pi_lt (by linarith) (by linarith)

lemma sin_nine_pos : 0 < Real.sin 9 := by
  have h1 := Real.pi_gt_three
  have h2 := Real.pi_lt_d2
  have h : Real.sin 9 = Real.sin (9 - 2 * π) := (Real.sin_sub_two_pi 9).symm
  rw [h]
  exact Real.sin_pos_of_pos_of_lt_pi (by linarith) (by linarith)

lemma sin_twelve_neg : Real.sin 12 < 0 := by
  have h1 := Real.pi_gt_three
  have h2 := Real.pi_lt_d2
  have h : Real.sin 12 = Real.sin (12 - 2 * π - 2 * π) := by
    rw [Real.sin_sub_two_pi, Real.sin_sub_two_pi]
  rw [h]
  exact Real.sin_neg_of_neg_of_neg_pi_lt (by linarith) (by linarith)

lemma sin_fifteen_pos : 0 < Real.sin 15 := by
  have h1 := Real.pi_gt_three
  have h2 := Real.pi_lt_d2
  have h : Real.sin 15 = Real.sin (15 - 2 * π - 2 * π) := by
    rw [Real.sin_sub_two_pi, Real.sin_sub_two_pi]
  rw [h]
  exact Real.sin_pos_of_pos_of_lt_pi (by linarith) (by linarith)

lemma sin_eighteen_neg : Real.sin 18 < 0 := by
  have h1 := Real.pi_gt_three
  have h2 := Real.pi_lt_d2
  have h : Real.sin 18 = Real.sin (18 - 2 * π - 2 * π - 2 * π) := by
    rw [Real.sin_sub_two_pi, Real.sin_sub_two_pi, Real.sin_sub_two_pi]
  rw [h]
  exact Real.sin_neg_of_neg_of_neg_pi_lt (by linarith) (by linarith)

lemma sin_twentyone_pos : 0 < Real.sin 21 := by
  have h1 := Real.pi_gt_three
  have h2 := Real.pi_lt_d2
  have h : Real.sin 21 = Real.sin (21 - 2 * π - 2 * π - 2 * π) := by
    rw [Real.sin_sub_two_pi, Real.sin_sub_two_pi, Real.sin_sub_two_pi]
  rw [h]
  exact Real.sin_pos_of_pos_of_lt_pi (by linarith) (by linarith)

/-! ### Evaluating the tick on the freshly built flare list -/

lemma getD_map_range {α : Type} [Inhabited α] (F : ℕ → α) {n j : ℕ} (hj : j < n) :
    ((List.range n).map F).getD j default = F j := by
  rw [List.getD_eq_getElem _ _ (by simpa using hj)]
  simp

/-- The scale written to flare `j` by the animation tick at `t = 0`:
`max 0 (sin (3 j) * 1.5)` times the flare's base scale. -/
lemma tick_zero_flare_scale (rnd : ℕ → ℝ) {j : ℕ} (hj : j < 8) :
    ((animateTick 0 (initAnimState rnd)).flares.getD j default).scale
      = max 0 (Real.sin ((j : ℝ) * 3) * 1.5) * (1 + rnd (9 * j + 8) * 0.8) := by
  have hfl : (animateTick 0 (initAnimState rnd)).flares
      = (List.range 8).map fun k =>
          updateFlare 0 ⟨(mkFlare rnd k).userData, 1, (mkFlare rnd k).opacity⟩ := by
    simp [animateTick, initAnimState, initFlareStates, mkFlares, flareCount,
      List.map_map, Function.comp_def]
  rw [hfl, getD_map_range _ hj]
  show max 0 (Real.sin (jsMod (0 + (j : ℝ) * 1.5) (π * 2) * 2) * 1.5) *
      (1 + rnd (9 * j + 8) * 0.8) = _
  rw [sin_two_mul_jsMod]
  ring_nf

/-! ### Claim theorems -/

/-- C1: each corona shell `i = 1..4` has opacity exactly `0.2 - 0.11*i`
(concretely 0.09, −0.02, −0.13, −0.24), radius `1.0 + 0.16*i`, and color
intensity `1.4 - 0.28*i`; the opacities strictly decrease in `i`, and from
`i = 2` on the opacity is non-positive. -/
theorem corona_shell_parameters :
    ((mkCorona 1).opacity = 0.2 - 0.11 * 1 ∧ (mkCorona 2).opacity = 0.2 - 0.11 * 2 ∧
     (mkCorona 3).opacity = 0.2 - 0.11 * 3 ∧ (mkCorona 4).opacity = 0.2 - 0.11 * 4) ∧
    ((mkCorona 1).opacity = 0.09 ∧ (mkCorona 2).opacity = -0.02 ∧
     (mkCorona 3).opacity = -0.13 ∧ (mkCorona 4).opacity = -0.24) ∧
    ((mkCorona 1).radius = 1.0 + 0.16 * 1 ∧ (mkCorona 2).radius = 1.0 + 0.16 * 2 ∧
     (mkCorona 3).radius = 1.0 + 0.16 * 3 ∧ (mkCorona 4).radius = 1.0 + 0.16 * 4) ∧
    ((mkCorona 1).colorScalar = 1.4 - 0.28 * 1 ∧ (mkCorona 2).colorScalar = 1.4 - 0.28 * 2 ∧
     (mkCorona 3).colorScalar = 1.4 - 0.28 * 3 ∧ (mkCorona 4).colorScalar = 1.4 - 0.28 * 4) ∧
    ((mkCorona 2).opacity < (mkCorona 1).opacity ∧
     (mkCorona 3).opacity < (mkCorona 2).opacity ∧
     (mkCorona 4).opacity < (mkCorona 3).opacity) ∧
    ((mkCorona 2).opacity ≤ 0 ∧ (mkCorona 3).opacity ≤ 0 ∧ (mkCorona 4).opacity ≤ 0) := by
  norm_num [mkCorona]

/-- C2 counterexample: the corona shells receive render orders `2 + i` for
`i = 1..4`, so the fourth corona shell's render order is 6 — strictly above 5,
contradicting the claimed range 2..5. -/
theorem corona_render_order_exceeds_five :
    (mkCorona 4).renderOrder = 6 ∧ 5 < (mkCorona 4).renderOrder := by
  norm_num [mkCorona]

/-- C2 (amended): the render orders are Sun Body 0, Wireframe 0.5, Occlusion
Shell 1, Corona Shells 3, 4, 5, 6 (`2 + i` for `i = 1..4`), Flares 10..17,
and they form a strict increasing chain, so every corona order is strictly
above the occlusion shell and every flare order strictly above every corona
order. -/
theorem render_order_total_order (rnd : ℕ → ℝ) :
    sunRenderOrder = 0 ∧ wireRenderOrder = 0.5 ∧ occlusionRenderOrder = 1 ∧
    (mkCorona 1).renderOrder = 3 ∧ (mkCorona 2).renderOrder = 4 ∧
    (mkCorona 3).renderOrder = 5 ∧ (mkCorona 4).renderOrder = 6 ∧
    (mkFlare rnd 0).renderOrder = 10 ∧ (mkFlare rnd 1).renderOrder = 11 ∧
    (mkFlare rnd 2).renderOrder = 12 ∧ (mkFlare rnd 3).renderOrder = 13 ∧
    (mkFlare rnd 4).renderOrder = 14 ∧ (mkFlare rnd 5).renderOrder = 15 ∧
    (mkFlare rnd 6).renderOrder = 16 ∧ (mkFlare rnd 7).renderOrder = 17 ∧
    sunRenderOrder < wireRenderOrder ∧ wireRenderOrder < occlusionRenderOrder ∧
    occlusionRenderOrder < (mkCorona 1).renderOrder ∧
    (mkCorona 1).renderOrder < (mkCorona 2).renderOrder ∧
    (mkCorona 2).renderOrder < (mkCorona 3).renderOrder ∧
    (mkCorona 3).renderOrder < (mkCorona 4).renderOrder ∧
    (mkCorona 4).renderOrder < (mkFlare rnd 0).renderOrder ∧
    (mkFlare rnd 0).renderOrder < (mkFlare rnd 1).renderOrder ∧
    (mkFlare rnd 1).renderOrder < (mkFlare rnd 2).renderOrder ∧
    (mkFlare rnd 2).renderOrder < (mkFlare rnd 3).renderOrder ∧
    (mkFlare rnd 3).renderOrder < (mkFlare rnd 4).renderOrder ∧
    (mkFlare rnd 4).renderOrder < (mkFlare rnd 5).renderOrder ∧
    (mkFlare rnd 5).renderOrder < (mkFlare rnd 6).renderOrder ∧
    (mkFlare rnd 6).renderOrder < (mkFlare rnd 7).renderOrder := by
  norm_num [mkFlare, mkCorona, sunRenderOrder, wireRenderOrder, occlusionRenderOrder]

/-- C6: the fragment color is the pure function of `(uv, time)` described by
the spec — two hash-noise octaves, `smoothstep 0.4 0.7`, a mix from
`(0.6, 0.3, 0.1)` to `(1.0, 0.7, 0.2)` — and its alpha component is always 1. -/
theorem frag_shader_matches_spec (uv : Vec2) (time : ℝ) :
    fragShader uv time = specFragColor uv time ∧ (fragShader uv time).w = 1 := by
  constructor
  · have h : noise ⟨uv.x * 5.0 + time * 0.05, uv.y * 5.0 + time * 0.05⟩ +
        noise ⟨uv.x * 12.0 + time * 0.08, uv.y * 12.0 + time * 0.08⟩ * 0.5 =
        noise ⟨uv.x * 5 + time * 0.05, uv.y * 5 + time * 0.05⟩ +
        0.5 * noise ⟨uv.x * 12 + time * 0.08, uv.y * 12 + time * 0.08⟩ := by
      norm_num
      ring
    simp only [fragShader, specFragColor, h]
    norm_num
  · simp only [fragShader]
    norm_num

/-- C9: the construction-time radii nest strictly: sun body 1.0 < wireframe
scale 1.012 < occlusion shell 1.025 < smallest corona radius 1.16, and the
occlusion shell is strictly inside every corona shell. -/
theorem nested_shell_radii :
    sunRadius = 1.0 ∧ wireScaleFactor = 1.012 ∧ occlusionRadius = 1.025 ∧
    (mkCorona 1).radius = 1.16 ∧
    sunRadius < wireScaleFactor ∧ wireScaleFactor < occlusionRadius ∧
    occlusionRadius < (mkCorona 1).radius ∧ occlusionRadius < (mkCorona 2).radius ∧
    occlusionRadius < (mkCorona 3).radius ∧ occlusionRadius < (mkCorona 4).radius := by
  norm_num [sunRadius, wireScaleFactor, occlusionRadius, mkCorona]

/-- C10: the animation tick is idempotent in the timestamp — running the
per-frame state update twice with the same `t` equals running it once,
because every write is an absolute function of `t` and the immutable
construction-time data. -/
theorem tick_idempotent (t : ℝ) (s : AnimState) :
    animateTick t (animateTick t s) = animateTick t s := by
  have h : ∀ f : FlareState,
      updateFlare (t * 0.0005) (updateFlare (t * 0.0005) f) = updateFlare (t * 0.0005) f :=
    fun f => rfl
  simp [animateTick, List.map_map, Function.comp_def, h]

/-- C4: for every flare index `i < 8` and every `time ≥ 0` the tick's phase
`(time + i*1.5) mod 2π` lies in `[0, 2π)`, the written scale equals
`max 0 (sin (phase*2) * 1.5) * baseScale` and is nonnegative, and the written
opacity equals `0.4 + sin (phase*3) * 0.6` and lies in `[-0.2, 1]`. -/
theorem flare_update_bounds (i : ℕ) (hi : i < 8) (time r : ℝ) (htime : 0 ≤ time)
    (hr0 : 0 ≤ r) (hr1 : r < 1) (f : FlareState)
    (hf : f.data = ⟨(i : ℝ) * 1.5, 1 + r * 0.8⟩) :
    0 ≤ jsMod (time + (i : ℝ) * 1.5) (π * 2) ∧
    jsMod (time + (i : ℝ) * 1.5) (π * 2) < 2 * π ∧
    (updateFlare time f).scale =
      max 0 (Real.sin (jsMod (time + (i : ℝ) * 1.5) (π * 2) * 2) * 1.5) * (1 + r * 0.8) ∧
    0 ≤ (updateFlare time f).scale ∧
    (updateFlare time f).opacity =
      0.4 + Real.sin (jsMod (time + (i : ℝ) * 1.5) (π * 2) * 3) * 0.6 ∧
    -0.2 ≤ (updateFlare time f).opacity ∧ (updateFlare time f).opacity ≤ 1 := by
  have ha : 0 ≤ time + (i : ℝ) * 1.5 := by positivity
  have hb : 0 < π * 2 := by positivity
  have hlt := jsMod_lt _ _ ha hb
  have hscale : (updateFlare time f).scale =
      max 0 (Real.sin (jsMod (time + (i : ℝ) * 1.5) (π * 2) * 2) * 1.5) * (1 + r * 0.8) := by
    simp [updateFlare, hf]
  have hop : (updateFlare time f).opacity =
      0.4 + Real.sin (jsMod (time + (i : ℝ) * 1.5) (π * 2) * 3) * 0.6 := by
    simp [updateFlare, hf]
  have hs1 := Real.neg_one_le_sin (jsMod (time + (i : ℝ) * 1.5) (π * 2) * 3)
  have hs2 := Real.sin_le_one (jsMod (time + (i : ℝ) * 1.5) (π * 2) * 3)
  refine ⟨jsMod_nonneg _ _ ha hb, by linarith, hscale, ?_, hop, by rw [hop]; linarith,
    by rw [hop]; linarith⟩
  rw [hscale]
  exact mul_nonneg (le_max_left 0 _) (by linarith)

/-- Witness for `flare_update_bounds` at `i = 0`, `time = 0`, `r = 0`. -/
theorem flare_update_bounds_witness :
    (0 : ℕ) < 8 ∧ (0 : ℝ) ≤ 0 ∧ (0 : ℝ) < 1 ∧
    (0 ≤ jsMod ((0 : ℝ) + ((0 : ℕ) : ℝ) * 1.5) (π * 2) ∧
     jsMod ((0 : ℝ) + ((0 : ℕ) : ℝ) * 1.5) (π * 2) < 2 * π ∧
     (updateFlare 0 ⟨⟨((0 : ℕ) : ℝ) * 1.5, 1 + (0 : ℝ) * 0.8⟩, 1, 0.7⟩).scale =
       max 0 (Real.sin (jsMod ((0 : ℝ) + ((0 : ℕ) : ℝ) * 1.5) (π * 2) * 2) * 1.5) *
         (1 + (0 : ℝ) * 0.8) ∧
     0 ≤ (updateFlare 0 ⟨⟨((0 : ℕ) : ℝ) * 1.5, 1 + (0 : ℝ) * 0.8⟩, 1, 0.7⟩).scale ∧
     (updateFlare 0 ⟨⟨((0 : ℕ) : ℝ) * 1.5, 1 + (0 : ℝ) * 0.8⟩, 1, 0.7⟩).opacity =
       0.4 + Real.sin (jsMod ((0 : ℝ) + ((0 : ℕ) : ℝ) * 1.5) (π * 2) * 3) * 0.6 ∧
     -0.2 ≤ (updateFlare 0 ⟨⟨((0 : ℕ) : ℝ) * 1.5, 1 + (0 : ℝ) * 0.8⟩, 1, 0.7⟩).opacity ∧
     (updateFlare 0 ⟨⟨((0 : ℕ) : ℝ) * 1.5, 1 + (0 : ℝ) * 0.8⟩, 1, 0.7⟩).opacity ≤ 1) :=
  ⟨by norm_num, le_refl 0, by norm_num,
    flare_update_bounds 0 (by norm_num) 0 0 (le_refl 0) (le_refl 0) (by norm_num) _ rfl⟩

/-- C5: for every `t ≥ 0`, the group scale written by the tick equals
`1 + sin(time * 2) * 0.02` with `time = t * 0.0005`, and lies in
`[0.98, 1.02]`. -/
theorem pulse_scale_bounds (t : ℝ) (ht : 0 ≤ t) (s : AnimState) :
    (animateTick t s).groupScale = 1 + Real.sin (t * 0.0005 * 2) * 0.02 ∧
    0.98 ≤ (animateTick t s).groupScale ∧ (animateTick t s).groupScale ≤ 1.02 := by
  have h1 := Real.neg_one_le_sin (t * 0.0005 * 2)
  have h2 := Real.sin_le_one (t * 0.0005 * 2)
  refine ⟨rfl, ?_, ?_⟩ <;>
    · simp only [animateTick]
      nlinarith

/-- C3 counterexample: at `t = 0` with the legal random stream constantly 0,
flare 1's render scale is strictly positive (its phase is `1.5`, and
`sin 3 > 0`), so the tick does not set every flare's render scale to 0. -/
theorem flare_one_scale_positive_at_zero :
    0 < ((animateTick 0 (initAnimState fun _ => 0)).flares.getD 1 default).scale := by
  rw [tick_zero_flare_scale (fun _ => 0) (by norm_num)]
  have hpos : 0 < Real.sin (((1 : ℕ) : ℝ) * 3) * 1.5 := by
    have h : (((1 : ℕ) : ℝ) * 3) = 3 := by norm_num
    rw [h]
    nlinarith [sin_three_pos]
  rw [max_eq_right hpos.le]
  nlinarith [hpos]

/-- C3 (amended): at `t = 0` the tick sets `time = 0`, pulse scale exactly 1,
y-rotation 0, shader time uniform 0; the render scale is 0 exactly for flares
0, 2, 4, 6 (where `sin (3 i) ≤ 0`), while flares 1, 3, 5, 7 get a strictly
positive render scale. -/
theorem animate_tick_at_zero (rnd : ℕ → ℝ) (h : ∀ n, 0 ≤ rnd n) :
    (animateTick 0 (initAnimState rnd)).uniformTime = 0 ∧
    (animateTick 0 (initAnimState rnd)).groupScale = 1 ∧
    (animateTick 0 (initAnimState rnd)).groupRotY = 0 ∧
    ((animateTick 0 (initAnimState rnd)).flares.getD 0 default).scale = 0 ∧
    ((animateTick 0 (initAnimState rnd)).flares.getD 2 default).scale = 0 ∧
    ((animateTick 0 (initAnimState rnd)).flares.getD 4 default).scale = 0 ∧
    ((animateTick 0 (initAnimState rnd)).flares.getD 6 default).scale = 0 ∧
    0 < ((animateTick 0 (initAnimState rnd)).flares.getD 1 default).scale ∧
    0 < ((animateTick 0 (initAnimState rnd)).flares.getD 3 default).scale ∧
    0 < ((animateTick 0 (initAnimState rnd)).flares.getD 5 default).scale ∧
    0 < ((animateTick 0 (initAnimState rnd)).flares.getD 7 default).scale := by
  refine ⟨by norm_num [animateTick], by norm_num [animateTick], by norm_num [animateTick],
    ?_, ?_, ?_, ?_, ?_, ?_, ?_, ?_⟩
  · rw [tick_zero_flare_scale rnd (by norm_num)]
    norm_num
  · rw [tick_zero_flare_scale rnd (by norm_num)]
    have hneg : Real.sin (((2 : ℕ) : ℝ) * 3) * 1.5 ≤ 0 := by
      have he : (((2 : ℕ) : ℝ) * 3) = 6 := by norm_num
      rw [he]
      nlinarith [sin_six_neg]
    rw [max_eq_left hneg, zero_mul]
  · rw [tick_zero_flare_scale rnd (by norm_num)]
    have hneg : Real.sin (((4 : ℕ) : ℝ) * 3) * 1.5 ≤ 0 := by
      have he : (((4 : ℕ) : ℝ) * 3) = 12 := by norm_num
      rw [he]
      nlinarith [sin_twelve_neg]
    rw [max_eq_left hneg, zero_mul]
  · rw [tick_zero_flare_scale rnd (by norm_num)]
    have hneg : Real.sin (((6 : ℕ) : ℝ) * 3) * 1.5 ≤ 0 := by
      have he : (((6 : ℕ) : ℝ) * 3) = 18 := by norm_num
      rw [he]
      nlinarith [sin_eighteen_neg]
    rw [max_eq_left hneg, zero_mul]
  · rw [tick_zero_flare_scale rnd (by norm_num)]
    have hpos : 0 < Real.sin (((1 : ℕ) : ℝ) * 3) * 1.5 := by
      have he : (((1 : ℕ) : ℝ) * 3) = 3 := by norm_num
      rw [he]
      nlinarith [sin_three_pos]
    rw [max_eq_right hpos.le]
    exact mul_pos hpos (by nlinarith [h (9 * 1 + 8)])
  · rw [tick_zero_flare_scale rnd (by norm_num)]
    have hpos : 0 < Real.sin (((3 : ℕ) : ℝ) * 3) * 1.5 := by
      have he : (((3 : ℕ) : ℝ) * 3) = 9 := by norm_num
      rw [he]
      nlinarith [sin_nine_pos]
    rw [max_eq_right hpos.le]
    exact mul_pos hpos (by nlinarith [h (9 * 3 + 8)])
  · rw [tick_zero_flare_scale rnd (by norm_num)]
    have hpos : 0 < Real.sin (((5 : ℕ) : ℝ) * 3) * 1.5 := by
      have he : (((5 : ℕ) : ℝ) * 3) = 15 := by norm_num
      rw [he]
      nlinarith [sin_fifteen_pos]
    rw [max_eq_right hpos.le]
    exact mul_pos hpos (by nlinarith [h (9 * 5 + 8)])
  · rw [tick_zero_flare_scale rnd (by norm_num)]
    have hpos : 0 < Real.sin (((7 : ℕ) : ℝ) * 3) * 1.5 := by
      have he : (((7 : ℕ) : ℝ) * 3) = 21 := by norm_num
      rw [he]
      nlinarith [sin_twentyone_pos]
    rw [max_eq_right hpos.le]
    exact mul_pos hpos (by nlinarith [h (9 * 7 + 8)])

/-- Witness for `animate_tick_at_zero` with the constant-zero random stream. -/
theorem animate_tick_at_zero_witness :
    (animateTick 0 (initAnimState fun _ => 0)).uniformTime = 0 ∧
    (animateTick 0 (initAnimState fun _ => 0)).groupScale = 1 ∧
    (animateTick 0 (initAnimState fun _ => 0)).groupRotY = 0 ∧
    ((animateTick 0 (initAnimState fun _ => 0)).flares.getD 0 default).scale = 0 ∧
    ((animateTick 0 (initAnimState fun _ => 0)).flares.getD 2 default).scale = 0 ∧
    ((animateTick 0 (initAnimState fun _ => 0)).flares.getD 4 default).scale = 0 ∧
    ((animateTick 0 (initAnimState fun _ => 0)).flares.getD 6 default).scale = 0 ∧
    0 < ((animateTick 0 (initAnimState fun _ => 0)).flares.getD 1 default).scale ∧
    0 < ((animateTick 0 (initAnimState fun _ => 0)).flares.getD 3 default).scale ∧
    0 < ((animateTick 0 (initAnimState fun _ => 0)).flares.getD 5 default).scale ∧
    0 < ((animateTick 0 (initAnimState fun _ => 0)).flares.getD 7 default).scale :=
  animate_tick_at_zero (fun _ => 0) (fun _ => le_refl 0)

/-- Witness for `pulse_scale_bounds` at `t = 0`. -/
theorem pulse_scale_bounds_witness :
    (0 : ℝ) ≤ 0 ∧
    ((animateTick 0 (initAnimState fun _ => 0)).groupScale =
        1 + Real.sin ((0 : ℝ) * 0.0005 * 2) * 0.02 ∧
      0.98 ≤ (animateTick 0 (initAnimState fun _ => 0)).groupScale ∧
      (animateTick 0 (initAnimState fun _ => 0)).groupScale ≤ 1.02) :=
  ⟨le_refl 0, pulse_scale_bounds 0 (le_refl 0) (initAnimState fun _ => 0)⟩

/-- C7 counterexample: the random draw constantly `0.5` is legal (each value
is in `[0, 1)`), yet it makes the second control-point direction the zero
vector, which three.js `normalize` leaves unchanged — so flare 0's second
control point has length 0, not 1.1. -/
theorem degenerate_direction_zero_length :
    ((0 : ℝ) ≤ 0.5 ∧ (0.5 : ℝ) < 1) ∧
    ((mkFlare (fun _ => 0.5) 0).curvePoints.getD 1 default).length = 0 ∧
    ((mkFlare (fun _ => 0.5) 0).curvePoints.getD 1 default).length < 1.1 := by
  have hv : flareDir1 (fun _ => (0.5 : ℝ)) 0 = ⟨0, 0, 0⟩ := by
    simp only [flareDir1]
    norm_num
  have hlen : ((mkFlare (fun _ => (0.5 : ℝ)) 0).curvePoints.getD 1 default).length = 0 := by
    show ((flareDir1 (fun _ => (0.5 : ℝ)) 0).normalize.multiplyScalar 1.1).length = 0
    rw [hv]
    norm_num [Vec3.normalize, Vec3.divideScalar, Vec3.multiplyScalar, Vec3.length]
  exact ⟨⟨by norm_num, by norm_num⟩, hlen, by rw [hlen]; norm_num⟩

/-- C7 (amended): for every random stream with values in `[0, 1)`, exactly 8
flares are built and flare `i < 8` has a 51-point polyline sampled from a
3-control-point curve starting at the origin, phase exactly `i * 1.5`, and
base scale in `[1.0, 1.8)`; whenever the two sampled direction vectors are
nonzero (the draw all-0.5 violates this), the second control point has length
exactly 1.1 and the third has length in `[2.5, 4.0)`. -/
theorem flare_construction (rnd : ℕ → ℝ) (hrnd : ∀ n, 0 ≤ rnd n ∧ rnd n < 1)
    (i : ℕ) (hi : i < 8) :
    (mkFlares rnd).length = 8 ∧
    (mkFlares rnd).getD i default = mkFlare rnd i ∧
    (mkFlare rnd i).points.length = 51 ∧
    (mkFlare rnd i).curvePoints.length = 3 ∧
    (mkFlare rnd i).curvePoints.getD 0 default = ⟨0, 0, 0⟩ ∧
    (mkFlare rnd i).userData.phase = (i : ℝ) * 1.5 ∧
    1 ≤ (mkFlare rnd i).userData.baseScale ∧
    (mkFlare rnd i).userData.baseScale < 1.8 ∧
    ((flareDir1 rnd i).length ≠ 0 →
      ((mkFlare rnd i).curvePoints.getD 1 default).length = 1.1) ∧
    ((flareDir2 rnd i).length ≠ 0 →
      2.5 ≤ ((mkFlare rnd i).curvePoints.getD 2 default).length ∧
      ((mkFlare rnd i).curvePoints.getD 2 default).length < 4) := by
  have hr6 := hrnd (9 * i + 6)
  have hr8 := hrnd (9 * i + 8)
  have hs : (0 : ℝ) ≤ 2.5 + rnd (9 * i + 6) * 1.5 := by nlinarith [hr6.1]
  refine ⟨by simp [mkFlares, flareCount], getD_map_range _ hi, ?_, rfl, rfl, rfl,
    ?_, ?_, ?_, ?_⟩
  · show (curveGetPoints (controlPoints rnd i) 50).length = 51
    simp only [curveGetPoints, List.length_map, List.length_range]
  · show (1 : ℝ) ≤ 1 + rnd (9 * i + 8) * 0.8
    nlinarith [hr8.1]
  · show 1 + rnd (9 * i + 8) * 0.8 < 1.8
    nlinarith [hr8.2]
  · intro h1
    show ((flareDir1 rnd i).normalize.multiplyScalar 1.1).length = 1.1
    exact length_normalize_multiplyScalar _ h1 _ (by norm_num)
  · intro h2
    have hlen2 : ((mkFlare rnd i).curvePoints.getD 2 default).length
        = 2.5 + rnd (9 * i + 6) * 1.5 := by
      show ((flareDir2 rnd i).normalize.multiplyScalar (2.5 + rnd (9 * i + 6) * 1.5)).length = _
      exact length_normalize_multiplyScalar _ h2 _ hs
    rw [hlen2]
    constructor
    · nlinarith [hr6.1]
    · nlinarith [hr6.2]

/-- Witness for `flare_construction` with the constant-zero stream at `i = 0`
(whose direction draws are nonzero, so the conditional length facts fire). -/
theorem flare_construction_witness :
    ((mkFlares fun _ => 0).length = 8 ∧
     (mkFlares fun _ => 0).getD 0 default = mkFlare (fun _ => 0) 0 ∧
     (mkFlare (fun _ => 0) 0).points.length = 51 ∧
     (mkFlare (fun _ => 0) 0).curvePoints.length = 3 ∧
     (mkFlare (fun _ => 0) 0).curvePoints.getD 0 default = ⟨0, 0, 0⟩ ∧
     (mkFlare (fun _ => 0) 0).userData.phase = ((0 : ℕ) : ℝ) * 1.5 ∧
     1 ≤ (mkFlare (fun _ => 0) 0).userData.baseScale ∧
     (mkFlare (fun _ => 0) 0).userData.baseScale < 1.8 ∧
     ((flareDir1 (fun _ => 0) 0).length ≠ 0 →
       ((mkFlare (fun _ => 0) 0).curvePoints.getD 1 default).length = 1.1) ∧
     ((flareDir2 (fun _ => 0) 0).length ≠ 0 →
       2.5 ≤ ((mkFlare (fun _ => 0) 0).curvePoints.getD 2 default).length ∧
       ((mkFlare (fun _ => 0) 0).curvePoints.getD 2 default).length < 4)) ∧
    ((mkFlare (fun _ => 0) 0).curvePoints.getD 1 default).length = 1.1 ∧
    2.5 ≤ ((mkFlare (fun _ => 0) 0).curvePoints.getD 2 default).length ∧
    ((mkFlare (fun _ => 0) 0).curvePoints.getD 2 default).length < 4 := by
  have hd1 : (flareDir1 (fun _ => 0) 0).length ≠ 0 := by
    simp only [flareDir1, Vec3.length]
    rw [Real.sqrt_ne_zero']
    norm_num
  have hd2 : (flareDir2 (fun _ => 0) 0).length ≠ 0 := by
    simp only [flareDir2, Vec3.length]
    rw [Real.sqrt_ne_zero']
    norm_num
  have hmain := flare_construction (fun _ => 0) (fun _ => ⟨le_refl 0, by norm_num⟩) 0 (by norm_num)
  exact ⟨hmain, hmain.2.2.2.2.2.2.2.2.1 hd1, hmain.2.2.2.2.2.2.2.2.2 hd2⟩

/-- C8: resizing from 800×600 to 1920×1080 sets the renderer size to
1920×1080 and the camera aspect from `800/600` (≈1.333) to `1920/1080`
(≈1.778), both within `1/1000` of the claimed figures, and leaves the scene
graph — every entity, render order and construction-time parameter — and the
other camera parameters unchanged. -/
theorem resize_updates_only_camera (a : App) (h : a.cameraAspect = 800 / 600) :
    (onResize a 1920 1080).cameraAspect = 1920 / 1080 ∧
    |a.cameraAspect - 1.333| < 1 / 1000 ∧
    |(onResize a 1920 1080).cameraAspect - 1.778| < 1 / 1000 ∧
    (onResize a 1920 1080).rendererWidth = 1920 ∧
    (onResize a 1920 1080).rendererHeight = 1080 ∧
    (onResize a 1920 1080).scene = a.scene ∧
    (onResize a 1920 1080).cameraFov = a.cameraFov ∧
    (onResize a 1920 1080).cameraNear = a.cameraNear ∧
    (onResize a 1920 1080).cameraFar = a.cameraFar := by
  refine ⟨rfl, ?_, ?_, rfl, rfl, rfl, rfl, rfl, rfl⟩
  · rw [h, abs_sub_lt_iff]
    constructor <;> norm_num
  · show |(1920 : ℚ) / 1080 - 1.778| < 1 / 1000
    rw [abs_sub_lt_iff]
    constructor <;> norm_num

/-- Witness for `resize_updates_only_camera` on the app built at 800×600. -/
theorem resize_updates_only_camera_witness :
    (onResize (initApp (fun _ => 0) 800 600) 1920 1080).cameraAspect = 1920 / 1080 ∧
    |(initApp (fun _ => 0) 800 600).cameraAspect - 1.333| < 1 / 1000 ∧
    |(onResize (initApp (fun _ => 0) 800 600) 1920 1080).cameraAspect - 1.778| < 1 / 1000 ∧
    (onResize (initApp (fun _ => 0) 800 600) 1920 1080).rendererWidth = 1920 ∧
    (onResize (initApp (fun _ => 0) 800 600) 1920 1080).rendererHeight = 1080 ∧
    (onResize (initApp (fun _ => 0) 800 600) 1920 1080).scene = (initApp (fun _ => 0) 800 600).scene ∧
    (onResize (initApp (fun _ => 0) 800 600) 1920 1080).cameraFov =
      (initApp (fun _ => 0) 800 600).cameraFov ∧
    (onResize (initApp (fun _ => 0) 800 600) 1920 1080).cameraNear =
      (initApp (fun _ => 0) 800 600).cameraNear ∧
    (onResize (initApp (fun _ => 0) 800 600) 1920 1080).cameraFar =
      (initApp (fun _ => 0) 800 600).cameraFar :=
  resize_updates_only_camera (initApp (fun _ => 0) 800 600) rfl

end SunDemo
